import Mathlib

/-!
Verification development for the table-serialization writer of the dca
repository (package ts).  The Go source is embedded shallowly: machine
integers become Int with explicit reduction modulo 2^64 where bytes are
produced, Go maps with int64 keys become association lists whose iteration
order is recovered by sorting the keys (mirroring tableIDList and
rowBufferTID in writer.go), and the byte sink becomes an accumulating list
of bytes together with a write counter and an optional failing write index.
-/

namespace DcaTs

/-! ## Byte-level constants (def.go, the version carrying the markers) -/

-- SOH "SCD01" NUL STX
def fileHeader : List Nat := [1, 83, 67, 68, 48, 49, 0, 2]
-- FS CAN
def fileCancel : List Nat := [28, 24]
-- FS EOT
def fileEOF : List Nat := [28, 4]
-- FS "C"
def markerChunk : List Nat := [28, 67]
-- RS "R"
def markerRow : List Nat := [30, 82]

def controlVersionID : Int := 1
def controlTagID : Int := 2
def controlTableID : Int := 3
def controlTableTagID : Int := 4
def controlFieldTypeID : Int := 5
def controlColumnID : Int := 6
def controlColumnTagID : Int := 7

-- type Type int64; the constants Hash .. Any (renamed with a t prefix so the
-- names do not shadow the Lean String type).
def tHash : Int := 1
def tInt64 : Int := 2
def tBool : Int := 3
def tString : Int := 4
def tBytes : Int := 5
def tAny : Int := 6

-- type Tag int64
def TagHidden : Int := 1

/-- Dynamic Go values as passed to Insert through the variadic
interface parameter.  The Go dynamic type is part of the value, so a
64-bit integer and a native int are distinct constructors. -/
inductive GoVal where
  | vInt64 (n : Int)
  | vInt (n : Int)
  | vBool (b : Bool)
  | vStr (s : String)
  | vType (n : Int)
  | vTag (n : Int)
  | vZero
  | vNil
deriving DecidableEq

/-- Errors latched on the writer; the Go code stores formatted error
values, modelled structurally with the data the message carries. -/
inductive WError where
  | invalidNames (names : List String)
  | countMismatch (expected actual : Nat)
  | invalidRowLength (len : Nat) (tid : Int)
  | sinkError
  | ioEOF
  | unknownValueType
deriving DecidableEq

/-- Panics raised by the bootstrap (csetup). -/
inductive PanicMsg where
  | errSet (e : WError)
  | idMismatch (name : String) (wanted got : Int)
deriving DecidableEq

/-! ## Data model (writer.go) -/

structure Table where
  name : String := ""
  comment : String := ""
  tags : List Int := []
deriving DecidableEq

structure Col where
  name : String := ""
  type : Int := 0
  link : Int := 0
  key : Bool := false
  nullable : Bool := false
  length : Int := 0
  sortOrder : Int := 0
  default : GoVal := .vNil
  comment : String := ""
  tags : List Int := []
deriving DecidableEq

structure TableRef where
  id : Int := 0
  all : List String := []
  col : List String := []
  invalid : List String := []
deriving DecidableEq

def zeroTableRef : TableRef := {}

structure RowRef where
  table : Int := 0
  id : Int := 0
deriving DecidableEq

def errTable : TableRef := { id := -1 }
def errRow : RowRef := { id := -1 }

structure TableInfo where
  id : Int := 0
  table : Table := {}
  columns : List Col := []
deriving DecidableEq

/-! ## Association-list maps for the Go map fields -/

def mapLookup {α : Type} (m : List (Int × α)) (k : Int) : Option α :=
  match m with
  | [] => none
  | p :: rest => if p.1 = k then some p.2 else mapLookup rest k

def mapSet {α : Type} (m : List (Int × α)) (k : Int) (v : α) : List (Int × α) :=
  match m with
  | [] => [(k, v)]
  | p :: rest => if p.1 = k then (k, v) :: rest else p :: mapSet rest k v

def mapErase {α : Type} (m : List (Int × α)) (k : Int) : List (Int × α) :=
  match m with
  | [] => []
  | p :: rest => if p.1 = k then mapErase rest k else p :: mapErase rest k

def insertSorted (x : Int) : List Int → List Int
  | [] => [x]
  | y :: rest => if x ≤ y then x :: y :: rest else y :: insertSorted x rest

def sortInts : List Int → List Int
  | [] => []
  | x :: rest => insertSorted x (sortInts rest)

/-- 8-byte little-endian encoding of an int64 (binary.Write with
binary.LittleEndian on an int64 value). -/
def le8 (n : Int) : List Nat :=
  let m := (n % (2 : Int) ^ 64).toNat
  [m % 256, m / 256 % 256, m / 256 ^ 2 % 256, m / 256 ^ 3 % 256,
   m / 256 ^ 4 % 256, m / 256 ^ 5 % 256, m / 256 ^ 6 % 256, m / 256 ^ 7 % 256]

/-! ## Writer state

The sink (io.Writer) is modelled by the accumulated output bytes plus a
write counter; a SinkCfg names the write call, if any, that fails.  The
defines and inserts fields are observations of the call trace (the Go
code does not store them); they let catalog-bootstrap claims be stated. -/

structure Writer where
  err : Option WError := none
  out : List Nat := []
  writeCount : Nat := 0
  chunksWritten : Int := 0
  table : List (Int × TableInfo) := []
  rowID : List (Int × Int) := []
  control : List (Int × TableRef) := []
  rowBuffer : List (Int × List (List Nat)) := []
  defines : List (Int × String) := []
  inserts : List (Int × List GoVal) := []
deriving DecidableEq

abbrev SinkCfg := Option Nat

/-- One write call against the sink: on the failing index nothing is
appended and false is returned, otherwise the bytes are appended. -/
def doWrite (cfg : SinkCfg) (w : Writer) (bs : List Nat) : Writer × Bool :=
  if cfg = some w.writeCount then
    ({ w with writeCount := w.writeCount + 1 }, false)
  else
    ({ w with out := w.out ++ bs, writeCount := w.writeCount + 1 }, true)

def Writer.tableIDList (w : Writer) : List Int :=
  sortInts (w.table.map (fun p => p.1))

def Writer.rowBufferTID (w : Writer) : List Int :=
  sortInts (w.rowBuffer.map (fun p => p.1))

def Writer.nextRowID (w : Writer) (tid : Int) : Writer × Int :=
  let rid := (mapLookup w.rowID tid).getD 0 + 1
  ({ w with rowID := mapSet w.rowID tid rid }, rid)

def Writer.Error (w : Writer) : Option WError := w.err

def TableRef.Use (t : TableRef) (columns : List String) : TableRef :=
  { id := t.id, all := t.all, col := columns,
    invalid := columns.filter (fun c => !(t.all.contains c)) }

/-- Insert (writer.go).  After the error, invalid-name and value-count
checks pass, the source only writes the row marker into the scratch
buffer and copies it out as the buffered row; encoding the values is an
open TODO in the source, so the values never reach rowBuffer. -/
def Writer.Insert (w : Writer) (t : TableRef) (values : List GoVal) : Writer × RowRef :=
  if w.err.isSome then (w, errRow)
  else if t.invalid ≠ [] then
    ({ w with err := some (.invalidNames t.invalid) }, errRow)
  else if t.col.length ≠ values.length then
    ({ w with err := some (.countMismatch t.col.length values.length) }, errRow)
  else
    let rowdata := markerRow
    ({ w with
        rowBuffer := mapSet w.rowBuffer t.id ((mapLookup w.rowBuffer t.id).getD [] ++ [rowdata]),
        inserts := w.inserts ++ [(t.id, values)] },
     { table := t.id, id := -1 })

def Writer.cdefine (w : Writer) (tid : Int) (t : Table) (cols : List Col) :
    Writer × TableRef :=
  if w.err.isSome then (w, errTable)
  else
    let names := cols.map (fun c => c.name)
    let ti : TableInfo := { id := tid, table := t, columns := cols }
    ({ w with table := mapSet w.table tid ti,
              defines := w.defines ++ [(tid, t.name)] },
     { id := tid, all := names, col := names, invalid := [] })

/-- csetup (writer.go): panics when an error is already latched or when
the ref id returned by cdefine differs from the expected constant. -/
def Writer.csetup (w : Writer) (tid : Int) (t : Table) (cols : List Col) :
    Except PanicMsg (Writer × TableRef) :=
  match w.err with
  | some e => .error (.errSet e)
  | none =>
    let r := w.cdefine tid t cols
    if r.2.id ≠ tid then .error (.idMismatch t.name tid r.2.id)
    else .ok ({ r.1 with control := mapSet r.1.control tid r.2 }, r.2)

/-- insertControl (writer.go): buffers the catalog rows describing one
table, its tags, its columns and their tags. -/
def Writer.insertControl (w : Writer) (ti : TableInfo) : Writer :=
  let tref := (mapLookup w.control controlTableID).getD zeroTableRef
  let ttagref := (mapLookup w.control controlTableTagID).getD zeroTableRef
  let cref := (mapLookup w.control controlColumnID).getD zeroTableRef
  let ctagref := (mapLookup w.control controlColumnTagID).getD zeroTableRef
  let w := (w.Insert tref [.vInt64 ti.id, .vInt 0, .vStr ti.table.name, .vStr ti.table.comment]).1
  let w := ti.table.tags.foldl (fun w tg =>
    let p := w.nextRowID controlTableTagID
    (p.1.Insert ttagref [.vInt64 p.2, .vInt64 ti.id, .vTag tg]).1) w
  (ti.columns.foldl (fun (acc : Writer × Nat) c =>
      let p := acc.1.nextRowID controlColumnID
      let rid := p.2
      let w := (p.1.Insert cref
        [.vInt64 rid, .vInt 0, .vInt64 ti.id, .vType c.type, .vInt64 c.link,
         .vBool c.key, .vBool c.nullable, .vInt64 c.length, .vInt64 0,
         .vInt64 (Int.ofNat acc.2 + 1), .vStr c.name, c.default, .vStr c.comment]).1
      let w := c.tags.foldl (fun w tg =>
        let q := w.nextRowID controlColumnTagID
        (q.1.Insert ctagref [.vInt64 q.2, .vInt64 rid, .vTag tg]).1) w
      (w, acc.2 + 1)) (w, 0)).1

def Writer.Define (w : Writer) (t : Table) (cols : List Col) : Writer × TableRef :=
  if w.err.isSome then (w, errTable)
  else
    let p := w.nextRowID controlTableID
    let r := p.1.cdefine p.2 t cols
    let w := match mapLookup r.1.table p.2 with
      | some ti => r.1.insertControl ti
      | none => r.1
    (w, r.2)

/-! ## Flush (writer.go)

The chunk-size loop checks each buffered row is at least two bytes and
accumulates the size of the intended header (table id, row count and a
nine-byte offset entry per row) plus the payload bytes.  The source also
builds the row-offset entries in that loop, but those entries are never
written to the chunk buffer; and the row count is passed to binary.Write
as a plain Go int, which binary.Write rejects without writing anything,
its error being discarded.  The emitted chunk therefore holds only the
marker, the chunk size, the table id and the raw row payloads. -/

def chunkSizeLoop (tid : Int) (acc : Int) : List (List Nat) → Except WError Int
  | [] => .ok acc
  | r :: rest =>
    if r.length < 2 then .error (.invalidRowLength r.length tid)
    else chunkSizeLoop tid (acc + (r.length : Int)) rest

def chunkSizeOf (tid : Int) (rows : List (List Nat)) : Except WError Int :=
  chunkSizeLoop tid ((16 : Int) + 9 * (rows.length : Int)) rows

def Writer.flushChunks (cfg : SinkCfg) : List Int → Writer → Writer
  | [], w => w
  | tid :: rest, w =>
    let rows := (mapLookup w.rowBuffer tid).getD []
    let w := { w with rowBuffer := mapErase w.rowBuffer tid }
    match chunkSizeOf tid rows with
    | .error e => { w with err := some e }
    | .ok chunkSize =>
      let cb := markerChunk ++ le8 chunkSize ++ le8 tid ++ rows.flatten
      let p := doWrite cfg w cb
      if p.2 then Writer.flushChunks cfg rest { p.1 with chunksWritten := p.1.chunksWritten + 1 }
      else { p.1 with err := some .sinkError }

def Writer.Flush (w : Writer) (cfg : SinkCfg) : Writer :=
  if w.err.isSome then w
  else if w.rowBuffer.length = 0 then w
  else
    -- the header write result is discarded by the source
    let w := if w.chunksWritten = 0 then (doWrite cfg w fileHeader).1 else w
    Writer.flushChunks cfg w.rowBufferTID w

/-- Cancel (writer.go): with a latched error it returns that error
without touching the sink; otherwise it writes the cancel trailer, and
any write error it latches is immediately overwritten by the
end-of-stream sentinel before returning nil. -/
def Writer.Cancel (w : Writer) (cfg : SinkCfg) : Writer × Option WError :=
  match w.err with
  | some e => (w, some e)
  | none =>
    let p := doWrite cfg w fileCancel
    let w := if p.2 then p.1 else { p.1 with err := some .sinkError }
    ({ w with err := some .ioEOF }, none)

/-- Close (writer.go): same shape as Cancel with the EOF trailer. -/
def Writer.Close (w : Writer) (cfg : SinkCfg) : Writer × Option WError :=
  match w.err with
  | some e => (w, some e)
  | none =>
    let p := doWrite cfg w fileEOF
    let w := if p.2 then p.1 else { p.1 with err := some .sinkError }
    ({ w with err := some .ioEOF }, none)

/-! ## Field coder for Int64 (fieldcoder.go) -/

def coderHashBitSize : Int := 256
def coderInt64BitSize : Int := 64

/-- coderInt64.Encode from the converged coder draft, the one whose
signature takes the column and which implements all six codecs over the
canonical Col type: the scratch buffer is resized to eight bytes (grown
when too small, truncated otherwise); a value whose dynamic type is
int64 or the native int is written little-endian over all eight bytes,
and every other dynamic type yields the unknown-value-type error with
the resized buffer untouched. -/
def coderInt64Encode (col : Col) (writeTo : List Nat) (value : GoVal) :
    List Nat × Option WError :=
  let buf := if writeTo.length < 8 then List.replicate 8 0 else writeTo.take 8
  match value with
  | .vInt64 n => (le8 n, none)
  | .vInt n => (le8 n, none)
  | _ => (buf, some .unknownValueType)

def Writer.addFieldType (w : Writer) (ftid : Int) (name : String) (bitSize : Int) : Writer :=
  (w.Insert ((mapLookup w.control controlFieldTypeID).getD zeroTableRef)
    [.vInt64 ftid, .vInt64 bitSize, .vStr name]).1

/-! ## Bootstrap (initControl, writer.go) -/

def versionCols : List Col := [{ name := "version", type := tHash }]

def tagCols : List Col :=
  [{ name := "id", type := tInt64, key := true },
   { name := "name", type := tString }]

def tableCols : List Col :=
  [{ name := "id", type := tInt64, key := true },
   { name := "version", type := tHash, default := .vZero },
   { name := "name", type := tString },
   { name := "comment", type := tString, default := .vZero }]

def tableTagCols : List Col :=
  [{ name := "id", type := tInt64, key := true },
   { name := "table", type := tInt64 },
   { name := "tag", type := tInt64 }]

def fieldtypeCols : List Col :=
  [{ name := "id", type := tInt64, key := true },
   { name := "bit_size", type := tInt64 },
   { name := "name", type := tString }]

def columnCols : List Col :=
  [{ name := "id", type := tInt64, key := true },
   { name := "version", type := tHash, default := .vZero, tags := [TagHidden] },
   { name := "table", type := tInt64 },
   { name := "fieldtype", type := tInt64 },
   { name := "link", type := tInt64, nullable := true },
   { name := "key", type := tBool, default := .vZero },
   { name := "nullable", type := tBool, default := .vZero },
   { name := "length", type := tInt64, default := .vZero,
     comment := "For strings this is the number of allowed runes. For bytes it is the byte count." },
   { name := "fixed_bit_size", type := tInt64, default := .vZero, tags := [TagHidden] },
   { name := "sort_order", type := tInt64, default := .vZero },
   { name := "name", type := tString },
   { name := "default", type := tAny, nullable := true },
   { name := "comment", type := tString, default := .vZero }]

def columnTagCols : List Col :=
  [{ name := "id", type := tInt64, key := true },
   { name := "column", type := tInt64 },
   { name := "tag", type := tInt64 }]

/-- initControl (writer.go): defines the seven control tables through
csetup, buffers their catalog rows, seeds the tag and fieldtype tables,
flushes, and buffers the version row.  Only the hash and int64 field
types are registered; the remaining four inserts are commented out in
the source. -/
def Writer.initControl (w : Writer) (cfg : SinkCfg) : Except PanicMsg Writer := do
  let rv ← w.csetup controlVersionID { name := "control/version" } versionCols
  let version := rv.2
  let rt ← rv.1.csetup controlTagID { name := "control/tag" } tagCols
  let tag := rt.2
  let rtb ← rt.1.csetup controlTableID { name := "control/table" } tableCols
  let rtt ← rtb.1.csetup controlTableTagID { name := "control/table/tag" } tableTagCols
  let rft ← rtt.1.csetup controlFieldTypeID { name := "control/fieldtype" } fieldtypeCols
  let rc ← rft.1.csetup controlColumnID { name := "control/column" } columnCols
  let rct ← rc.1.csetup controlColumnTagID { name := "control/column/tag" } columnTagCols
  let w := rct.1
  let w := w.tableIDList.foldl (fun w tid =>
    match mapLookup w.table tid with
    | some ti => w.insertControl ti
    | none => w) w
  let w := (w.Insert tag [.vTag TagHidden, .vStr "hidden"]).1
  let w := w.addFieldType tHash "hash" coderHashBitSize
  let w := w.addFieldType tInt64 "int64" coderInt64BitSize
  let w := w.Flush cfg
  let w := (w.Insert version [.vInt 0]).1
  return w

def emptyWriter : Writer := {}

def NewWriter (cfg : SinkCfg) : Except PanicMsg Writer :=
  emptyWriter.initControl cfg

/-- The writer state right after NewWriter over a sink that never
fails. -/
def boot : Writer :=
  match NewWriter none with
  | .ok w => w
  | .error _ => emptyWriter

/-! ## Concrete states used to evaluate the code on specific inputs -/

/-- A healthy writer holding one buffered two-byte row for table 8. -/
def oneRowState : Writer := { rowBuffer := [(8, [[30, 82]])] }

/-- A writer with a latched value-count error. -/
def latchedState : Writer := { err := some (.countMismatch 2 3) }

/-- The user table of the one-row scenario: t with an Int64 key column
and an eight-rune String column. -/
def userTable : Table := { name := "t" }

def userCols : List Col :=
  [{ name := "id", type := tInt64, key := true },
   { name := "name", type := tString, length := 8 }]

def userDefine : Writer × TableRef := boot.Define userTable userCols

def userInsert : Writer × RowRef :=
  userDefine.1.Insert userDefine.2 [.vInt64 42, .vStr "hello"]

/-- A post-bootstrap-like writer with rows buffered for tables 8 and 9. -/
def twoTableState : Writer :=
  { chunksWritten := 1, rowBuffer := [(8, [[30, 82]]), (9, [[30, 82]])] }

/-- The result of the bootstrap csetup of a fresh table at id 5. -/
def csetupRes : Writer × TableRef :=
  match emptyWriter.csetup 5 { name := "x" } [] with
  | .ok r => r
  | .error _ => (emptyWriter, zeroTableRef)

end DcaTs

namespace DcaTs

/-! ## Helper lemmas -/

theorem flush_of_err {w : Writer} (cfg : SinkCfg) (h : w.err.isSome) :
    w.Flush cfg = w := by
  simp [Writer.Flush, h]

theorem chunkSizeLoop_ok (tid : Int) :
    ∀ (rows : List (List Nat)) (acc : Int), (∀ r ∈ rows, 2 ≤ r.length) →
      ∃ sz, chunkSizeLoop tid acc rows = .ok sz := by
  intro rows
  induction rows with
  | nil => exact fun acc _ => ⟨acc, rfl⟩
  | cons r rest ih =>
    intro acc h
    have h2 : 2 ≤ r.length := h r (by simp)
    have hlt : ¬ (r.length < 2) := by omega
    simpa [chunkSizeLoop, hlt] using ih (acc + r.length) (fun q hq => h q (by simp [hq]))

/-! ## Claims -/

/-- C1: the claim says a flushed chunk consists, after the FS C marker
and the chunk size, of the table id, the row count, one row-offset entry
per row and the payloads, with the chunk size equal to that body length.
Evaluating Flush on a writer holding one buffered two-byte row for table
8 shows the emitted bytes are header, marker, chunk size 27, table id
and the two payload bytes only: the row count and the offset entry are
missing, and the emitted body (10 bytes) does not measure 27. -/
theorem c1_flush_chunk_bytes :
    (oneRowState.Flush none).out =
      [1, 83, 67, 68, 48, 49, 0, 2,
       28, 67,
       27, 0, 0, 0, 0, 0, 0, 0,
       8, 0, 0, 0, 0, 0, 0, 0,
       30, 82] ∧
    (oneRowState.Flush none).out.length - 18 ≠ 27 := by decide

/-- C2: the claim says Insert encodes (42, "hello") so the buffered row
begins RS R followed by the little-endian bytes of 42 and the UTF-8
bytes of hello.  Evaluating the pipeline shows the buffered row for the
user table (which receives id 1) is exactly the two marker bytes: the
values are discarded.  The first buffered row under id 1 is the pending
control/version bootstrap row, itself also a bare marker; the second is
the row of this Insert. -/
theorem c2_insert_buffers_marker_only :
    userDefine.2.id = 1 ∧
    mapLookup userInsert.1.rowBuffer 1 = some [[30, 82], [30, 82]] ∧
    [30, 82] ≠ [30, 82, 42, 0, 0, 0, 0, 0, 0, 0, 104, 101, 108, 108, 111] := by decide

set_option maxRecDepth 8000 in
/-- C3 counterexample: the claim says no bytes reach the sink during
NewWriter; in fact the bootstrap ends with a Flush, and right after
construction the sink already holds 180 bytes. -/
theorem c3_newwriter_output_nonempty :
    NewWriter none = .ok boot ∧ boot.out ≠ [] ∧ boot.out.length = 180 := by
  exact ⟨rfl, by decide, by decide⟩

set_option maxRecDepth 8000 in
/-- C3 amended: NewWriter allocates state and runs the bootstrap, whose
final Flush does write to the sink: after construction the sink holds
the file header followed by the five control-catalog chunks (tables 2,
3, 5, 6, 7 with 1, 7, 2, 29, 2 buffered rows). -/
theorem c3_bootstrap_writes_header_and_catalog :
    NewWriter none = .ok boot ∧
    boot.out =
      fileHeader ++
      (markerChunk ++ le8 27 ++ le8 controlTagID ++ (List.replicate 1 markerRow).flatten) ++
      (markerChunk ++ le8 93 ++ le8 controlTableID ++ (List.replicate 7 markerRow).flatten) ++
      (markerChunk ++ le8 38 ++ le8 controlFieldTypeID ++ (List.replicate 2 markerRow).flatten) ++
      (markerChunk ++ le8 335 ++ le8 controlColumnID ++ (List.replicate 29 markerRow).flatten) ++
      (markerChunk ++ le8 38 ++ le8 controlColumnTagID ++ (List.replicate 2 markerRow).flatten) ∧
    boot.chunksWritten = 5 := by
  exact ⟨rfl, by decide, by decide⟩

/-- C4 counterexample: with a latched error, Close and Cancel return the
latched error but write nothing: the output stays empty instead of
receiving the EOT or CAN trailer. -/
theorem c4_no_trailer_after_error :
    latchedState.Close none = (latchedState, some (.countMismatch 2 3)) ∧
    (latchedState.Close none).1.out = [] ∧
    latchedState.Cancel none = (latchedState, some (.countMismatch 2 3)) ∧
    (latchedState.Cancel none).1.out = [] := by decide

/-- C4 amended: if a terminal error is latched, Close returns the
latched error without writing the EOT trailer to the sink, and Cancel
returns the pre-existing error without writing the CAN trailer; both
leave the writer unchanged. -/
theorem c4_terminal_close_cancel (cfg : SinkCfg) (w : Writer) (e : WError)
    (h : w.err = some e) :
    w.Close cfg = (w, some e) ∧ w.Cancel cfg = (w, some e) := by
  simp [Writer.Close, Writer.Cancel, h]

theorem c4_terminal_close_cancel_w :
    latchedState.Close none = (latchedState, some (.countMismatch 2 3)) ∧
    latchedState.Cancel none = (latchedState, some (.countMismatch 2 3)) :=
  c4_terminal_close_cancel none latchedState (.countMismatch 2 3) rfl

/-- C5: once the terminal error is set, Define returns the sentinel
TableRef with id -1, Insert returns the sentinel RowRef with id -1,
Flush writes nothing and changes nothing, and no public operation
replaces the latched error. -/
theorem c5_terminal_noop (cfg : SinkCfg) (w : Writer) (e : WError) (t : Table)
    (cols : List Col) (ref : TableRef) (vals : List GoVal) (h : w.err = some e) :
    w.Define t cols = (w, errTable) ∧ errTable.id = -1 ∧
    w.Insert ref vals = (w, errRow) ∧ errRow.id = -1 ∧
    w.Flush cfg = w ∧
    (w.Define t cols).1.err = some e ∧ (w.Insert ref vals).1.err = some e ∧
    (w.Flush cfg).err = some e ∧ (w.Cancel cfg).1.err = some e ∧
    (w.Close cfg).1.err = some e := by
  simp [Writer.Define, Writer.Insert, Writer.Flush, Writer.Cancel, Writer.Close, h,
    errTable, errRow]

theorem c5_terminal_noop_w :
    latchedState.Define { name := "x" } [] = (latchedState, errTable) ∧ errTable.id = -1 ∧
    latchedState.Insert zeroTableRef [] = (latchedState, errRow) ∧ errRow.id = -1 ∧
    latchedState.Flush none = latchedState ∧
    (latchedState.Define { name := "x" } []).1.err = some (.countMismatch 2 3) ∧
    (latchedState.Insert zeroTableRef []).1.err = some (.countMismatch 2 3) ∧
    (latchedState.Flush none).err = some (.countMismatch 2 3) ∧
    (latchedState.Cancel none).1.err = some (.countMismatch 2 3) ∧
    (latchedState.Close none).1.err = some (.countMismatch 2 3) :=
  c5_terminal_noop none latchedState (.countMismatch 2 3) { name := "x" } []
    zeroTableRef [] rfl

/-- C6: on a healthy writer with no invalid names in the ref, Insert
latches the count-mismatch error carrying the expected and actual
counts and returns the sentinel row when the value count differs from
the selected-column count, and latches no error when they agree. -/
theorem c6_insert_count_mismatch (w : Writer) (ref : TableRef) (vals : List GoVal)
    (h : w.err = none) (hinv : ref.invalid = []) :
    (ref.col.length ≠ vals.length →
      w.Insert ref vals =
        ({ w with err := some (.countMismatch ref.col.length vals.length) }, errRow)) ∧
    (ref.col.length = vals.length → (w.Insert ref vals).1.err = none) := by
  constructor <;> intro hlen <;> simp [Writer.Insert, h, hinv, hlen]

theorem c6_insert_count_mismatch_w :
    emptyWriter.Insert zeroTableRef [.vInt 0] =
      ({ emptyWriter with err := some (.countMismatch 0 1) }, errRow) ∧
    (emptyWriter.Insert zeroTableRef []).1.err = none :=
  ⟨(c6_insert_count_mismatch emptyWriter zeroTableRef [.vInt 0] rfl rfl).1 (by decide),
   (c6_insert_count_mismatch emptyWriter zeroTableRef [] rfl rfl).2 rfl⟩

/-- C7: the claim says control/fieldtype is seeded with six rows, one
per Type.  Evaluating the bootstrap shows exactly two rows are inserted
into table 5, for hash and int64; the other four inserts are commented
out in the source. -/
theorem c7_fieldtype_two_rows :
    boot.inserts.filter (fun p => p.1 == controlFieldTypeID) =
      [(controlFieldTypeID, [.vInt64 tHash, .vInt64 256, .vStr "hash"]),
       (controlFieldTypeID, [.vInt64 tInt64, .vInt64 64, .vStr "int64"])] := by decide

/-- C8: the Int64 field codec accepts both a 64-bit signed integer and
a native (pointer-sized) integer, and for equal numeric inputs both
produce the identical 8-byte little-endian output without error. -/
theorem c8_coder_int64 (col : Col) (writeTo : List Nat) (n : Int) :
    coderInt64Encode col writeTo (.vInt64 n) = (le8 n, none) ∧
    coderInt64Encode col writeTo (.vInt n) = (le8 n, none) ∧
    coderInt64Encode col writeTo (.vInt64 n) = coderInt64Encode col writeTo (.vInt n) := by
  exact ⟨rfl, rfl, rfl⟩

/-- C9: the bootstrap defines exactly the seven control tables in the
fixed order version, tag, table, table/tag, fieldtype, column,
column/tag with ids 1 through 7, and csetup only returns successfully
when the assigned id matches the expected one: any deviation is a panic,
not a latched error. -/
theorem c9_control_catalog :
    boot.defines =
      [(1, "control/version"), (2, "control/tag"), (3, "control/table"),
       (4, "control/table/tag"), (5, "control/fieldtype"), (6, "control/column"),
       (7, "control/column/tag")] ∧
    NewWriter none = Except.ok boot ∧
    (∀ (w : Writer) (tid : Int) (t : Table) (cols : List Col) (r : Writer × TableRef),
      w.csetup tid t cols = .ok r → r.2.id = tid) := by
  refine ⟨by decide, rfl, ?_⟩
  intro w tid t cols r h
  cases he : w.err with
  | some e => simp [Writer.csetup, he] at h
  | none =>
    simp [Writer.csetup, he, Writer.cdefine] at h
    subst h
    rfl

theorem c9_control_catalog_w : csetupRes.2.id = 5 :=
  c9_control_catalog.2.2 emptyWriter 5 { name := "x" } [] csetupRes rfl

/-- C10: the Flush loop removes each table's rows from the row buffer
before writing its chunk, so when the sink write of a chunk fails, the
rows of that chunk and of every table processed earlier in the same call
are gone from the buffer, and a later Flush (being a no-op on the
latched error) never retries them.  Stated for a writer holding rows for
two tables a < b whose second chunk write fails. -/
theorem c10_flush_loses_rows_on_write_error (w : Writer) (a b : Int)
    (ra rb : List (List Nat))
    (herr : w.err = none) (hbuf : w.rowBuffer = [(a, ra), (b, rb)])
    (hcw : w.chunksWritten ≠ 0) (hab : a < b)
    (hra : ∀ r ∈ ra, 2 ≤ r.length) (hrb : ∀ r ∈ rb, 2 ≤ r.length) :
    (w.Flush (some (w.writeCount + 1))).err = some .sinkError ∧
    (w.Flush (some (w.writeCount + 1))).rowBuffer = [] ∧
    (∀ cfg2, (w.Flush (some (w.writeCount + 1))).Flush cfg2 =
      w.Flush (some (w.writeCount + 1))) := by
  have hba : b ≠ a := ne_of_gt hab
  have hle : a ≤ b := le_of_lt hab
  obtain ⟨sza, hsza⟩ := chunkSizeLoop_ok a ra ((16 : Int) + 9 * (ra.length : Int)) hra
  obtain ⟨szb, hszb⟩ := chunkSizeLoop_ok b rb ((16 : Int) + 9 * (rb.length : Int)) hrb
  have hmain : (w.Flush (some (w.writeCount + 1))).err = some .sinkError ∧
      (w.Flush (some (w.writeCount + 1))).rowBuffer = [] := by
    simp [Writer.Flush, herr, hbuf, hcw, Writer.rowBufferTID, sortInts, insertSorted, hle,
      Writer.flushChunks, mapLookup, mapErase, hba, chunkSizeOf, hsza, hszb, doWrite,
      Nat.succ_ne_self]
  refine ⟨hmain.1, hmain.2, fun cfg2 => flush_of_err cfg2 ?_⟩
  simp [hmain.1]

theorem c10_flush_loses_rows_on_write_error_w :
    (twoTableState.Flush (some 1)).err = some .sinkError ∧
    (twoTableState.Flush (some 1)).rowBuffer = [] ∧
    (∀ cfg2, (twoTableState.Flush (some 1)).Flush cfg2 = twoTableState.Flush (some 1)) :=
  c10_flush_loses_rows_on_write_error twoTableState 8 9 [[30, 82]] [[30, 82]]
    rfl rfl (by decide) (by decide) (by decide) (by decide)

end DcaTs
